import Mathlib

/-!
# Verification of the Rick & Morty ingestion pipeline (shallow embedding)

This file embeds the failure-handling core of `src/ingestion.py` and the SQL
script runner of `src/snowflake_dal.py` as executable Lean definitions and
proves the specified properties about them.

Modelling conventions:

* Records fetched from the API are opaque; all definitions are parametric in
  the record type `α`.
* One HTTP request is modelled by its observable outcome (`RawResult`):
  either a decoded JSON body, an HTTP status error raised by
  `raise_for_status` (status code in 400..599), a connection error, or a
  timeout.  A page URL is associated with a stream `Nat → RawResult α`
  giving the outcome of the n-th attempt (attempts are numbered from 1).
* The `while current_url:` pagination loop is modelled with explicit fuel;
  `none` means the loop did not terminate within the given fuel (the source
  accepts the non-termination risk of a cyclic `next` chain).
* The filesystem holding snapshot files is a list of named files with
  modification times; deleting a file removes it by name, writing appends.
  File deletions are assumed to succeed (the source logs and ignores unlink
  failures; that best-effort aspect is outside the claims proved here).
* Python float arithmetic in the throughput summary is modelled over `ℚ`,
  with division by zero raising (modelled as `Option.none`), matching
  the `ZeroDivisionError` semantics of Python.
-/

namespace RickMorty

/-! ## Configuration constants (`src/config.py`, default environment) -/

/-- `API_TIMEOUT = int(os.getenv("API_TIMEOUT", "30"))`. -/
def API_TIMEOUT : Nat := 30

/-- `API_MAX_RETRIES = int(os.getenv("API_MAX_RETRIES", "5"))`. -/
def API_MAX_RETRIES : Nat := 5

/-- `API_RETRY_BACKOFF = int(os.getenv("API_RETRY_BACKOFF", "2"))`. -/
def API_RETRY_BACKOFF : Nat := 2

/-! ## Page responses (`{info: {next: ...}, results: [...]}`) -/

/-- The `info` mapping of a page response; only its `next` key is read by the
client (`info.get("next")`).  `none` models an absent or JSON-null value. -/
structure PageInfo where
  next : Option String
deriving DecidableEq, Repr

/-- A decoded page response.  `results` is `none` when the `results` key is
absent, `info` is `none` when the `info` key is absent. -/
structure PageResponse (α : Type) where
  results : Option (List α)
  info : Option PageInfo
deriving DecidableEq, Repr

/-- `response.get("results", [])`. -/
def pageResults {α : Type} (r : PageResponse α) : List α :=
  r.results.getD []

/-- `info = response.get("info", \x7b\x7d)` followed by `info.get("next")`. -/
def pageNext {α : Type} (r : PageResponse α) : Option String :=
  (r.info.getD ⟨none⟩).next

/-! ## Single HTTP attempt outcomes -/

/-- Observable outcome of one `session.get` + `raise_for_status` + `.json()`
round trip.  `status code` means `raise_for_status` raised
`requests.exceptions.HTTPError` for that code (so `400 ≤ code < 600`);
`connError`/`timeout` are `requests.exceptions.ConnectionError` and
`requests.exceptions.Timeout`. -/
inductive RawResult (α : Type)
  | ok (r : PageResponse α)
  | status (code : Nat)
  | connError
  | timeout
deriving DecidableEq, Repr

/-- Exceptions that can escape the `try`/`except` body of
`RickMortyAPIClient._fetch_page`:  a re-raised `HTTPError` (5xx branch) or an
`APIIngestionError` (4xx branch, and the `RequestException` branch that wraps
connection errors and timeouts). -/
inductive PageError
  | httpError (code : Nat)
  | apiIngestionError
deriving DecidableEq, Repr

/-- The body of `_fetch_page` (lines 99-118 of `src/ingestion.py`) on one
attempt outcome: a 2xx body is returned; an `HTTPError` with code ≥ 500 is
re-raised as-is; any other `HTTPError` (4xx) becomes `APIIngestionError`;
`ConnectionError`/`Timeout` fall into the `RequestException` handler and
become `APIIngestionError` as well. -/
def fetch_page_once {α : Type} : RawResult α → Except PageError (PageResponse α)
  | .ok r => .ok r
  | .status code =>
      if 500 ≤ code then .error (.httpError code) else .error .apiIngestionError
  | .connError => .error .apiIngestionError
  | .timeout => .error .apiIngestionError

/-- The `retry_if_exception_type((ConnectionError, Timeout, HTTPError))`
predicate of the tenacity decorator, evaluated on the exceptions that the
body can actually raise: `HTTPError` is in the retry list,
`APIIngestionError` is not (connection errors and timeouts never escape the
body as their own types, having been wrapped into `APIIngestionError`). -/
def tenacity_retryable : PageError → Bool
  | .httpError _ => true
  | .apiIngestionError => false

/-- Result of the tenacity-decorated `_fetch_page`: a page, a propagated
non-retryable exception, or `tenacity.RetryError` after the attempt budget
of `stop_after_attempt` is exhausted. -/
inductive FetchPageResult (α : Type)
  | ok (r : PageResponse α)
  | fatal (e : PageError)
  | retryError
deriving DecidableEq, Repr

/-- The tenacity retry loop around `_fetch_page`.  `budget` is the number of
further attempts still allowed after the current one (`stop_after_attempt s`
starts with `budget = s - 1`); `n` is the 1-based index of the current
attempt in the outcome stream.  Returns the result together with the total
number of requests issued. -/
def retryAttempts {α : Type} (out : Nat → RawResult α) :
    Nat → Nat → FetchPageResult α × Nat
  | 0, n =>
      match fetch_page_once (out n) with
      | .ok r => (.ok r, 1)
      | .error e =>
          if tenacity_retryable e then (.retryError, 1) else (.fatal e, 1)
  | budget + 1, n =>
      match fetch_page_once (out n) with
      | .ok r => (.ok r, 1)
      | .error e =>
          if tenacity_retryable e then
            let rest := retryAttempts out budget (n + 1)
            (rest.1, rest.2 + 1)
          else (.fatal e, 1)

/-- The decorated `_fetch_page` for one URL.  The decorator is applied at
class-definition time with `stop=stop_after_attempt(API_MAX_RETRIES)` — the
module-level constant imported from `src/config.py`, not the per-instance
`self.max_retries`. -/
def fetch_page {α : Type} (out : Nat → RawResult α) : FetchPageResult α × Nat :=
  retryAttempts out (API_MAX_RETRIES - 1) 1

/-- `RickMortyAPIClient.__init__` stores the timeout and the requested
maximum retry count on the instance. -/
structure RickMortyAPIClient where
  timeout : Nat
  max_retries : Nat
deriving DecidableEq, Repr

/-- A page fetch through a constructed client.  The client instance is a
real argument, but the retry budget baked into the decorator does not read
it: it was fixed to `API_MAX_RETRIES` when the class was created. -/
def client_fetch_page {α : Type} (_c : RickMortyAPIClient)
    (out : Nat → RawResult α) : FetchPageResult α × Nat :=
  fetch_page out

/-! ## Pagination (`RickMortyAPIClient.fetch_all_pages`) -/

/-- The error surfaced by `fetch_all_pages` and `ingest_entity`: any
exception in the pagination loop body or the ingestion wrapper is re-raised
as `APIIngestionError`. -/
inductive IngestError
  | apiIngestion
deriving DecidableEq, Repr

/-- A paginated API server: for each URL, the stream of per-attempt
outcomes of `GET`-ting that URL. -/
def Server (α : Type) : Type := String → Nat → RawResult α

/-- The `while current_url:` loop of `fetch_all_pages`.  `cur` is
`current_url` (`none` models Python `None`; the empty string is also falsy
and ends the loop), `acc` is `all_results`.  `fuel` bounds the number of
iterations; `none` means the loop did not finish within the fuel, modelling
the accepted non-termination risk of a cyclic `next` chain.  A page fetch
that raises (`fatal` or `retryError`) is caught by the `except Exception`
clause and re-raised as `APIIngestionError`. -/
def fetchAllLoop {α : Type} (server : Server α) :
    Nat → Option String → List α → Option (Except IngestError (List α))
  | _, none, acc => some (.ok acc)
  | fuel, some url, acc =>
      if url.isEmpty then some (.ok acc)
      else
        match fuel with
        | 0 => none
        | f + 1 =>
            match (fetch_page (server url)).1 with
            | .ok r => fetchAllLoop server f (pageNext r) (acc ++ pageResults r)
            | .fatal _ => some (.error .apiIngestion)
            | .retryError => some (.error .apiIngestion)

/-- `fetch_all_pages`: start the loop at the endpoint with an empty
accumulator. -/
def fetch_all_pages {α : Type} (server : Server α) (fuel : Nat)
    (endpoint : String) : Option (Except IngestError (List α)) :=
  fetchAllLoop server fuel (some endpoint) []

/-! ## Snapshot store (`cleanup_old_files`, `save_json_to_file`) -/

/-- The JSON object assembled as `data_to_save` (lines 199-204). -/
structure Snapshot (α : Type) where
  ingested_at : String
  source : String
  total_records : Nat
  data : List α
deriving DecidableEq, Repr

/-- A file on disk in the snapshot directory of an entity. -/
structure SnapshotFile (α : Type) where
  name : String
  mtime : Nat
  content : Snapshot α
deriving DecidableEq, Repr

/-- The glob pattern `f"{entity_name}_*.json"`: the name starts with
`entity_name + "_"` and ends with `".json"`. -/
def matchesSnapshotGlob (entity : String) (name : String) : Bool :=
  List.isPrefixOf (entity ++ "_").data name.data &&
    List.isSuffixOf ".json".data name.data

/-- `cleanup_old_files`: sort the files matching the pattern by modification
time, newest first (`sorted(..., key=mtime, reverse=True)`), keep the first
`keep_latest`, and delete the rest (by name). -/
def cleanup_old_files {α : Type} (files : List (SnapshotFile α))
    (entity : String) (keep_latest : Nat) : List (SnapshotFile α) :=
  let matching := files.filter fun f => matchesSnapshotGlob entity f.name
  let sorted := matching.insertionSort fun a b => b.mtime ≤ a.mtime
  let files_to_delete := sorted.drop keep_latest
  files.filter fun f => !(List.elem f.name (files_to_delete.map fun g => g.name))

/-- `data_to_save` (lines 199-204): `total_records` is `len(records)` and
`data` is the records themselves. -/
def data_to_save {α : Type} (ingested_at source : String)
    (records : List α) : Snapshot α :=
  ⟨ingested_at, source, records.length, records⟩

/-- The snapshot filename `f"{entity_name}_{timestamp}.json"` where
`timestamp = get_timestamp().replace(":", "-")`. -/
def snapshot_filename (entity timestamp : String) : String :=
  entity ++ "_" ++ (timestamp.replace ":" "-") ++ ".json"

/-- The file written by `save_json_to_file(data_to_save, file_path)`:
name, modification time and content of the new snapshot. -/
def new_snapshot_file {α : Type} (entity ts_file ts_ingest endpoint : String)
    (mtime_new : Nat) (records : List α) : SnapshotFile α :=
  ⟨snapshot_filename entity ts_file, mtime_new,
    data_to_save ts_ingest endpoint records⟩

/-! ## Orchestrator (`RickMortyAPIClient.ingest_entity`) -/

/-- The `Records/Second` summary statistic `len(records)/elapsed_time`.
Python float division raises `ZeroDivisionError` when the divisor is zero,
modelled as `none`; there is no guard in the source. -/
def records_per_second (n : Nat) (elapsed : ℚ) : Option ℚ :=
  if elapsed = 0 then none else some ((n : ℚ) / elapsed)

/-- `ingest_entity`.  Arguments beyond the parameters of the source model the
ambient state: `fs` is the entity directory before the run, `ts_file` and
`ts_ingest` the two `get_timestamp()` reads (filename and `ingested_at`),
`mtime_new` the modification time of the newly written file, and `elapsed`
the measured wall-clock time.  Returns the outcome (`Except`) together with
the directory contents after the run; `none` propagates a non-terminating
pagination.  On a successful fetch with `save_to_file`, old files are
cleaned up with `keep_latest=0` and the new snapshot is written; the
summary division then runs (and its `ZeroDivisionError`, like every other
exception in the `try` body, is re-raised as `APIIngestionError`). -/
def ingest_entity {α : Type} (server : Server α) (fuel : Nat)
    (endpoint : String) (entity : String) (ts_file ts_ingest : String)
    (mtime_new : Nat) (save_to_file : Bool) (fs : List (SnapshotFile α))
    (elapsed : ℚ) :
    Option (Except IngestError (List α) × List (SnapshotFile α)) :=
  match fetch_all_pages server fuel endpoint with
  | none => none
  | some (.error _) => some (.error .apiIngestion, fs)
  | some (.ok records) =>
      let fs1 :=
        if save_to_file then
          cleanup_old_files fs entity 0 ++
            [new_snapshot_file entity ts_file ts_ingest endpoint mtime_new
              records]
        else fs
      match records_per_second records.length elapsed with
      | none => some (.error .apiIngestion, fs1)
      | some _ => some (.ok records, fs1)

/-! ## Retry backoff delay

The delay schedule is produced by the third-party `tenacity` library, which
is not part of the sources of this repository.  Modelled from the spec: the
decorator `wait_exponential(multiplier=API_RETRY_BACKOFF, min=1, max=30)`
waits `multiplier × 2^(attempt-1)` seconds before the retry following the
`attempt`-th failure, clamped below by `min` (itself floored at 0) and above
by `max`. -/

/-- Modelled from the spec: `tenacity.wait_exponential` with general
`multiplier`, `min` and `max` parameters and exponent base 2. -/
def wait_exponential (multiplier lo hi : ℚ) (attempt : Nat) : ℚ :=
  max (max 0 lo) (min (multiplier * 2 ^ (attempt - 1)) hi)

/-- The wait configured by the `@retry` decorator on `_fetch_page`:
`wait_exponential(multiplier=API_RETRY_BACKOFF, min=1, max=30)`. -/
def retry_wait (attempt : Nat) : ℚ :=
  wait_exponential (API_RETRY_BACKOFF : ℚ) 1 30 attempt

/-! ## SQL script runner (`SnowflakeDAL.execute_script`)

Python strings are modelled as their character sequences (`List Char`) so
that every operation is structurally recursive and executable. -/

/-- Python `s.split(sep)` for a one-character separator (used with `';'`
and `'\n'`): splits on every occurrence, keeping empty pieces, and yields
one (empty) piece for the empty string. -/
def pySplit (sep : Char) : List Char → List (List Char)
  | [] => [[]]
  | c :: cs =>
      let rest := pySplit sep cs
      if c == sep then [] :: rest
      else
        match rest with
        | r :: rs => (c :: r) :: rs
        | [] => [[c]]

/-- Python `s.strip()`: remove leading and trailing whitespace. -/
def pyStrip (l : List Char) : List Char :=
  ((l.dropWhile Char.isWhitespace).reverse.dropWhile Char.isWhitespace).reverse

/-- Cleaning of one raw statement (lines 162-169 of
`src/snowflake_dal.py`): drop the lines that are blank or whose stripped
form starts with `--`, re-join with newlines, and strip the result. -/
def clean_statement (stmt : List Char) : List Char :=
  let cleaned_lines := (pySplit '\n' stmt).filter fun line =>
    !(pyStrip line).isEmpty && !(List.isPrefixOf "--".data (pyStrip line))
  pyStrip (List.intercalate ['\n'] cleaned_lines)

/-- The statement list built by `execute_script`: `sql_script.split(';')`,
each piece cleaned, empty results dropped. -/
def script_statements (sql_script : List Char) : List (List Char) :=
  ((pySplit ';' sql_script).map clean_statement).filter fun s => !s.isEmpty

/-- The sequential execution loop of `execute_script` over an executor that
reports success or failure per statement.  Returns the statements actually
submitted, in order, and whether the whole script succeeded; the first
failing statement is re-raised, so no later statement runs. -/
def run_statements (ex : List Char → Bool) :
    List (List Char) → List (List Char) × Bool
  | [] => ([], true)
  | s :: rest =>
      if ex s then
        let r := run_statements ex rest
        (s :: r.1, r.2)
      else ([s], false)

/-- `execute_script`: split and clean, then execute sequentially. -/
def execute_script (ex : List Char → Bool) (sql_script : List Char) :
    List (List Char) × Bool :=
  run_statements ex (script_statements sql_script)

/-- The single-quote character, which delimits SQL string literals. -/
def squote : Char := Char.ofNat 39

/-- Modelled from the spec: splitting "on top-level statement separators".
A semicolon inside a single-quoted SQL string literal is not a statement
separator; this scanner tracks the quote state and splits only on unquoted
semicolons.  (`cur` holds the current piece reversed.) -/
def splitTopLevelAux : List Char → Bool → List Char → List (List Char)
  | [], _, cur => [cur.reverse]
  | c :: cs, inQ, cur =>
      if (c == ';') && !inQ then
        cur.reverse :: splitTopLevelAux cs inQ []
      else
        splitTopLevelAux cs (if c == squote then !inQ else inQ) (c :: cur)

/-- Modelled from the spec: split a script on top-level semicolons. -/
def split_top_level (s : List Char) : List (List Char) :=
  splitTopLevelAux s false []

/-- Modelled from the spec: the statements of a script under top-level
splitting, with the same comment-line and blank-line stripping. -/
def spec_script_statements (sql_script : List Char) : List (List Char) :=
  ((split_top_level sql_script).map clean_statement).filter fun s =>
    !s.isEmpty

/-! ## A well-formed chain of pages

`chainServes server us ps` says the server answers the first attempt at
each URL `us[i]` with page `ps[i]`, the `next` link of each page points at the
following URL (and the last page's `next` is absent/null), and no URL is
the empty string. -/

def chainServes {α : Type} (server : Server α) :
    List String → List (PageResponse α) → Prop
  | [], [] => True
  | u :: us, p :: ps =>
      u ≠ "" ∧ server u 1 = .ok p ∧ pageNext p = us.head? ∧
        chainServes server us ps
  | _, _ => False

/-! ## Helper lemmas about the retry loop -/

theorem retryAttempts_first_ok {α : Type} (out : Nat → RawResult α)
    (r : PageResponse α) (budget n : Nat) (h : out n = .ok r) :
    retryAttempts out budget n = (.ok r, 1) := by
  cases budget <;> simp [retryAttempts, h, fetch_page_once]

theorem retryAttempts_first_fatal {α : Type} (out : Nat → RawResult α)
    (e : PageError) (budget n : Nat)
    (h : fetch_page_once (out n) = .error e)
    (hr : tenacity_retryable e = false) :
    retryAttempts out budget n = (.fatal e, 1) := by
  cases budget <;> simp [retryAttempts, h, hr]

theorem retryAttempts_all_5xx {α : Type} (out : Nat → RawResult α)
    (code : Nat) (hall : ∀ n, out n = .status code) (hc : 500 ≤ code) :
    ∀ budget n, retryAttempts out budget n = (.retryError, budget + 1) := by
  intro budget
  induction budget with
  | zero =>
      intro n
      simp [retryAttempts, hall n, fetch_page_once, hc, tenacity_retryable]
  | succ b ih =>
      intro n
      simp [retryAttempts, hall n, fetch_page_once, hc, tenacity_retryable,
        ih (n + 1)]

theorem fetch_page_first_ok {α : Type} (out : Nat → RawResult α)
    (r : PageResponse α) (h : out 1 = .ok r) :
    fetch_page out = (.ok r, 1) :=
  retryAttempts_first_ok out r (API_MAX_RETRIES - 1) 1 h

theorem fetch_page_all_5xx {α : Type} (out : Nat → RawResult α)
    (code : Nat) (hall : ∀ n, out n = .status code) (hc : 500 ≤ code) :
    fetch_page out = (.retryError, API_MAX_RETRIES) :=
  retryAttempts_all_5xx out code hall hc (API_MAX_RETRIES - 1) 1

theorem fetch_page_4xx {α : Type} (out : Nat → RawResult α) (code : Nat)
    (h : out 1 = .status code) (hc : code < 500) :
    fetch_page out = (.fatal .apiIngestionError, 1) := by
  refine retryAttempts_first_fatal out .apiIngestionError _ 1 ?_ rfl
  simp [fetch_page_once, h, Nat.not_le.mpr hc]

/-! ## Helper lemmas about the pagination loop -/

theorem fetchAllLoop_chain {α : Type} (server : Server α) :
    ∀ (us : List String) (ps : List (PageResponse α)),
      chainServes server us ps →
    ∀ fuel acc, us.length ≤ fuel →
      fetchAllLoop server fuel us.head? acc
        = some (.ok (acc ++ (ps.map pageResults).flatten)) := by
  intro us
  induction us with
  | nil =>
      intro ps h fuel acc _
      cases ps with
      | nil => simp [fetchAllLoop]
      | cons p ps => exact absurd h (by simp [chainServes])
  | cons u us ih =>
      intro ps h fuel acc hf
      cases ps with
      | nil => exact absurd h (by simp [chainServes])
      | cons p ps =>
          obtain ⟨hne, hs, hnext, hrest⟩ := h
          cases fuel with
          | zero => simp at hf
          | succ f =>
              have hemp : u.isEmpty = false := by
                cases h' : u.isEmpty
                · rfl
                · exact absurd ((String.isEmpty_iff u).mp h') hne
              have hstep := fetch_page_first_ok (server u) p hs
              simp only [List.head?_cons]
              rw [fetchAllLoop, hemp]
              simp only [Bool.false_eq_true, if_false, hstep]
              rw [hnext, ih ps hrest f (acc ++ pageResults p)
                (Nat.succ_le_succ_iff.mp hf)]
              simp [List.append_assoc]

/-! ## C1: pagination returns the ordered concatenation of all pages -/

/-- C1: for every sequence of paginated responses totalling `N` records
across `P` pages (`N, P ≥ 0`, the chain being well formed and the fetch of
each page succeeding), `fetch_all_pages` returns exactly the ordered
concatenation of the `results` of each page in fetch order; consequently its
output length is the sum of the page lengths, i.e. `N`, and cross-page
record order is preserved. -/
theorem fetch_all_pages_ordered_concat {α : Type} (server : Server α)
    (us : List String) (ps : List (PageResponse α)) (fuel : Nat)
    (h : chainServes server us ps) (hf : us.length ≤ fuel) :
    fetch_all_pages server fuel (us.headD "")
        = some (.ok ((ps.map pageResults).flatten)) ∧
      ((ps.map pageResults).flatten).length
        = (ps.map fun p => (pageResults p).length).sum := by
  constructor
  · cases us with
    | nil =>
        cases ps with
        | nil =>
            show fetchAllLoop server fuel (some "") [] = _
            rw [fetchAllLoop.eq_def]
            rfl
        | cons p ps => exact absurd h (by simp [chainServes])
    | cons u us' =>
        have := fetchAllLoop_chain server (u :: us') ps h fuel [] hf
        simpa [fetch_all_pages] using this
  · simp [List.length_flatten, List.map_map, Function.comp_def]

/-- The two-page scenario from the spec: page 1 holds records 1 and 2 and
links to page 2, which holds record 3 and ends the chain. -/
def c1_page1 : PageResponse Nat := ⟨some [1, 2], some ⟨some "u2"⟩⟩

def c1_page2 : PageResponse Nat := ⟨some [3], some ⟨none⟩⟩

def c1_server : Server Nat := fun u _ =>
  if u = "u2" then .ok c1_page2 else .ok c1_page1

/-- Witness for C1 at the concrete two-page scenario of the spec. -/
theorem fetch_all_pages_ordered_concat_witness :
    fetch_all_pages c1_server 2 (["u1", "u2"].headD "")
        = some (.ok (([c1_page1, c1_page2].map pageResults).flatten)) ∧
      (([c1_page1, c1_page2].map pageResults).flatten).length
        = ([c1_page1, c1_page2].map fun p => (pageResults p).length).sum :=
  fetch_all_pages_ordered_concat c1_server ["u1", "u2"]
    [c1_page1, c1_page2] 2
    ⟨by decide, rfl, rfl, by decide, rfl, rfl, trivial⟩ (by decide)

/-! ## C10: totality in the shape of a page response -/

/-- C10: `fetch_all_pages` is total in the shape of each page response: a
missing `results` field contributes zero records instead of failing, and a
missing `info` field, or a missing or null `next` inside `info`, terminates
pagination normally with all records accumulated so far. -/
theorem fetch_all_pages_shape_total {α : Type} (server : Server α)
    (url : String) (r : PageResponse α) (fuel : Nat) (acc : List α)
    (hurl : url ≠ "") (hserv : server url 1 = .ok r) :
    ((r.info = none ∨ r.info = some ⟨none⟩) →
      fetchAllLoop server (fuel + 1) (some url) acc
        = some (.ok (acc ++ pageResults r))) ∧
    (r.results = none → pageResults r = []) := by
  constructor
  · intro hinfo
    have hnext : pageNext r = none := by
      rcases hinfo with h | h <;> simp [pageNext, h]
    have hemp : url.isEmpty = false := by
      cases h' : url.isEmpty
      · rfl
      · exact absurd ((String.isEmpty_iff url).mp h') hurl
    have hstep := fetch_page_first_ok (server url) r hserv
    rw [fetchAllLoop, hemp]
    simp only [Bool.false_eq_true, if_false, hstep, hnext]
    rw [fetchAllLoop.eq_def]
  · intro h
    simp [pageResults, h]

/-- A page whose `results` and `info` keys are both absent. -/
def c10_page : PageResponse Nat := ⟨none, none⟩

def c10_server : Server Nat := fun _ _ => .ok c10_page

/-- Witness for C10: fetching a bare `{}` response terminates normally and
contributes zero records. -/
theorem fetch_all_pages_shape_total_witness :
    fetchAllLoop c10_server 1 (some "u") [5]
        = some (.ok ([5] ++ pageResults c10_page)) ∧
      pageResults c10_page = [] :=
  ⟨(fetch_all_pages_shape_total c10_server "u" c10_page 0 [5]
      (by decide) rfl).1 (Or.inl rfl),
    (fetch_all_pages_shape_total c10_server "u" c10_page 0 [5]
      (by decide) rfl).2 rfl⟩

/-! ## C2: exhausted retries leave the snapshot store untouched -/

/-- C2: if every attempt at a page returns a 5xx status until the retry
budget is exhausted, the decorated page fetch surfaces the distinguishable
exhausted-retry signal (`tenacity.RetryError`, re-raised by the pagination
loop as `APIIngestionError`), pagination aborts, and `ingest_entity` ends in
the ingestion error with the on-disk snapshot state of the entity exactly as it
was before the run — neither cleanup nor write occurs. -/
theorem ingest_no_snapshot_on_exhausted_retries {α : Type}
    (server : Server α) (url entity ts_file ts_ingest : String)
    (mtime_new f : Nat) (save_to_file : Bool) (fs : List (SnapshotFile α))
    (elapsed : ℚ) (acc : List α) (code : Nat)
    (hurl : url ≠ "") (hall : ∀ n, server url n = .status code)
    (hc : 500 ≤ code) :
    (fetch_page (server url)).1 = FetchPageResult.retryError ∧
    fetchAllLoop server (f + 1) (some url) acc
        = some (.error .apiIngestion) ∧
    ingest_entity server (f + 1) url entity ts_file ts_ingest mtime_new
        save_to_file fs elapsed
      = some (.error .apiIngestion, fs) := by
  have hemp : url.isEmpty = false := by
    cases h' : url.isEmpty
    · rfl
    · exact absurd ((String.isEmpty_iff url).mp h') hurl
  have hfp := fetch_page_all_5xx (server url) code hall hc
  have hloop : ∀ acc' : List α,
      fetchAllLoop server (f + 1) (some url) acc'
        = some (.error .apiIngestion) := by
    intro acc'
    rw [fetchAllLoop, hemp]
    simp only [Bool.false_eq_true, if_false, hfp]
  refine ⟨by rw [hfp], hloop acc, ?_⟩
  simp only [ingest_entity, fetch_all_pages, hloop]

/-- A server that answers every attempt at every URL with HTTP 503. -/
def c2_server : Server Nat := fun _ _ => .status 503

/-- A directory holding one pre-existing characters snapshot. -/
def c2_fs : List (SnapshotFile Nat) :=
  [⟨"characters_2024.json", 1, ⟨"t0", "s", 0, []⟩⟩]

/-- Witness for C2: a persistent-503 run raises and leaves the directory
exactly as it was. -/
theorem ingest_no_snapshot_on_exhausted_retries_witness :
    (fetch_page (c2_server "u1")).1 = FetchPageResult.retryError ∧
    fetchAllLoop c2_server 1 (some "u1") ([] : List Nat)
        = some (.error .apiIngestion) ∧
    ingest_entity c2_server 1 "u1" "characters" "ts" "ts" 9 true c2_fs 1
      = some (.error .apiIngestion, c2_fs) :=
  ingest_no_snapshot_on_exhausted_retries c2_server "u1" "characters"
    "ts" "ts" 9 0 true c2_fs 1 [] 503 (by decide) (fun _ => rfl) (by decide)

/-! ## C3: a 4xx fails immediately with a single request -/

/-- C3: if the first request for a page returns a 4xx status, the page
fetch fails at once with exactly one request issued (zero retries),
propagating the distinguishable `APIIngestionError` signal, and the
pagination loop run from that page aborts with the ingestion error. -/
theorem fetch_page_4xx_immediate {α : Type} (server : Server α)
    (url : String) (code : Nat) (hserv : server url 1 = .status code)
    (_h400 : 400 ≤ code) (h500 : code < 500) :
    fetch_page (server url) = (.fatal .apiIngestionError, 1) ∧
    (url ≠ "" → ∀ f (acc : List α),
      fetchAllLoop server (f + 1) (some url) acc
        = some (.error .apiIngestion)) := by
  have hfp := fetch_page_4xx (server url) code hserv h500
  refine ⟨hfp, ?_⟩
  intro hurl f acc
  have hemp : url.isEmpty = false := by
    cases h' : url.isEmpty
    · rfl
    · exact absurd ((String.isEmpty_iff url).mp h') hurl
  rw [fetchAllLoop, hemp]
  simp only [Bool.false_eq_true, if_false, hfp]

/-- A server that answers every request with HTTP 404. -/
def c3_server : Server Nat := fun _ _ => .status 404

/-- Witness for C3 at a concrete 404. -/
theorem fetch_page_4xx_immediate_witness :
    fetch_page (c3_server "u1") = (.fatal .apiIngestionError, 1) ∧
    fetchAllLoop c3_server 1 (some "u1") ([] : List Nat)
        = some (.error .apiIngestion) :=
  ⟨(fetch_page_4xx_immediate c3_server "u1" 404 rfl (by decide)
      (by decide)).1,
    (fetch_page_4xx_immediate c3_server "u1" 404 rfl (by decide)
      (by decide)).2 (by decide) 0 []⟩

/-! ## C4: the applied retry bound is the module constant, not the
constructor argument -/

/-- C4 counterexample: a client constructed with `max_retries = 2` still has
a persistently failing (5xx) page fetch attempted 5 times — the decorator field
`stop_after_attempt(API_MAX_RETRIES)` budget was fixed from the module
constant when the class was created and never reads the instance field, so
the applied bound does not equal the maximum retry count given to the
client. -/
theorem client_retry_bound_counterexample :
    (client_fetch_page (RickMortyAPIClient.mk 30 2)
        (fun _ => (RawResult.status 503 : RawResult Nat))).2 = 5 ∧
      (RickMortyAPIClient.mk 30 2).max_retries = 2 ∧
      ¬((client_fetch_page (RickMortyAPIClient.mk 30 2)
          (fun _ => (RawResult.status 503 : RawResult Nat))).2
        ≤ (RickMortyAPIClient.mk 30 2).max_retries) := by
  decide

/-- C4 amended: for every client, a page fetch that keeps failing with 5xx
errors is attempted exactly `API_MAX_RETRIES` times (the module constant,
default 5) before the exhausted-retry error propagates, regardless of the
`max_retries` value given to the client constructor; a connection or
timeout failure is wrapped into the fatal `APIIngestionError` on the first
attempt and is never retried. -/
theorem client_retry_bound_amended {α : Type} (c : RickMortyAPIClient)
    (out out2 : Nat → RawResult α) (code : Nat)
    (hall : ∀ n, out n = .status code) (hc : 500 ≤ code)
    (htrans : out2 1 = .connError ∨ out2 1 = .timeout) :
    client_fetch_page c out = (.retryError, API_MAX_RETRIES) ∧
    client_fetch_page c out2 = (.fatal .apiIngestionError, 1) := by
  constructor
  · exact fetch_page_all_5xx out code hall hc
  · refine retryAttempts_first_fatal out2 .apiIngestionError _ 1 ?_ rfl
    rcases htrans with h | h <;> simp [fetch_page_once, h]

/-- Witness for C4 amended: client built with `max_retries = 2`, one stream
of persistent 503s and one stream of connection errors. -/
theorem client_retry_bound_amended_witness :
    client_fetch_page (RickMortyAPIClient.mk 30 2)
        (fun _ => (RawResult.status 503 : RawResult Nat))
      = (.retryError, API_MAX_RETRIES) ∧
    client_fetch_page (RickMortyAPIClient.mk 30 2)
        (fun _ => (RawResult.connError : RawResult Nat))
      = (.fatal .apiIngestionError, 1) :=
  client_retry_bound_amended (RickMortyAPIClient.mk 30 2)
    (fun _ => RawResult.status 503) (fun _ => RawResult.connError) 503
    (fun _ => rfl) (by decide) (Or.inl rfl)

/-! ## C5: the throughput summary has no division guard -/

/-- A server delivering one page with three records and no next link. -/
def c5_server : Server Nat := fun _ _ => .ok ⟨some [1, 2, 3], some ⟨none⟩⟩

/-- C5 counterexample: with a perfectly successful fetch but a measured
elapsed time of exactly zero, the `Records/Second` summary divides by zero
and the run ends in the (wrapped) error — the summary step does not
complete, so the claimed guard does not exist.  The snapshot had already
been written when the summary raised. -/
theorem ingest_summary_zero_elapsed_counterexample :
    fetch_all_pages c5_server 1 "u" = some (.ok [1, 2, 3]) ∧
    records_per_second 3 0 = none ∧
    ingest_entity c5_server 1 "u" "characters" "ts" "ts" 7 true [] 0
      = some (.error .apiIngestion,
          [new_snapshot_file "characters" "ts" "ts" "u" 7 [1, 2, 3]]) :=
  ⟨rfl, rfl, rfl⟩

/-- C5 amended: the orchestrator computes `records / elapsed_seconds` with
no zero guard; whenever the elapsed time is nonzero the summary step
completes and the run returns the records, while an elapsed time of exactly
zero raises a division error (surfaced as the ingestion error, after the
snapshot write). -/
theorem ingest_summary_completes_nonzero {α : Type} (server : Server α)
    (fuel : Nat) (endpoint entity ts_file ts_ingest : String)
    (mtime_new : Nat) (save_to_file : Bool) (fs : List (SnapshotFile α))
    (elapsed : ℚ) (records : List α)
    (hfetch : fetch_all_pages server fuel endpoint = some (.ok records))
    (h0 : elapsed ≠ 0) :
    records_per_second records.length elapsed
        = some ((records.length : ℚ) / elapsed) ∧
    ingest_entity server fuel endpoint entity ts_file ts_ingest mtime_new
        save_to_file fs elapsed
      = some (.ok records,
          if save_to_file then
            cleanup_old_files fs entity 0 ++
              [new_snapshot_file entity ts_file ts_ingest endpoint
                mtime_new records]
          else fs) := by
  constructor
  · simp [records_per_second, h0]
  · simp only [ingest_entity, hfetch, records_per_second, h0, if_false,
      if_neg h0]

/-- Witness for C5 amended: same successful server, elapsed time 2. -/
theorem ingest_summary_completes_nonzero_witness :
    records_per_second ([1, 2, 3] : List Nat).length 2
        = some ((([1, 2, 3] : List Nat).length : ℚ) / 2) ∧
    ingest_entity c5_server 1 "u" "characters" "ts" "ts" 7 true [] 2
      = some (.ok [1, 2, 3],
          if true then
            cleanup_old_files ([] : List (SnapshotFile Nat)) "characters" 0
              ++ [new_snapshot_file "characters" "ts" "ts" "u" 7 [1, 2, 3]]
          else []) :=
  ingest_summary_completes_nonzero c5_server 1 "u" "characters" "ts" "ts"
    7 true [] 2 [1, 2, 3] rfl (by norm_num)

/-! ## C6: exactly one snapshot file after a successful run -/

/-- With `keep_latest = 0` every file matching the glob of the entity is
deleted: the cleaned directory contains no matching file. -/
theorem cleanup_keep0_no_matching {α : Type} (fs : List (SnapshotFile α))
    (entity : String) :
    (cleanup_old_files fs entity 0).filter
      (fun f => matchesSnapshotGlob entity f.name) = [] := by
  rw [List.filter_eq_nil_iff]
  intro f hf hglob
  simp only [cleanup_old_files, List.drop_zero, List.mem_filter,
    Bool.not_eq_true'] at hf
  obtain ⟨hmem, helem⟩ := hf
  have hmatch : f ∈ fs.filter
      (fun g => matchesSnapshotGlob entity g.name) :=
    List.mem_filter.mpr ⟨hmem, hglob⟩
  have hsort : f ∈ (fs.filter
      (fun g => matchesSnapshotGlob entity g.name)).insertionSort
        (fun a b => b.mtime ≤ a.mtime) :=
    ((List.perm_insertionSort _ _).mem_iff).mpr hmatch
  have hname : f.name ∈ ((fs.filter
      (fun g => matchesSnapshotGlob entity g.name)).insertionSort
        (fun a b => b.mtime ≤ a.mtime)).map (fun g => g.name) :=
    List.mem_map_of_mem _ hsort
  rw [List.elem_iff.mpr hname] at helem
  exact absurd helem (by simp)

/-- The filename written by `ingest_entity` matches its own entity glob. -/
theorem snapshot_filename_matches (entity ts : String) :
    matchesSnapshotGlob entity (snapshot_filename entity ts) = true := by
  have hp : List.isPrefixOf (entity ++ "_").data
      (snapshot_filename entity ts).data = true := by
    rw [List.isPrefixOf_iff_prefix]
    unfold snapshot_filename
    generalize entity ++ "_" = s
    rw [String.data_append, String.data_append, List.append_assoc]
    exact List.prefix_append _ _
  have hs : List.isSuffixOf ".json".data
      (snapshot_filename entity ts).data = true := by
    rw [List.isSuffixOf_iff_suffix]
    unfold snapshot_filename
    rw [String.data_append]
    exact List.suffix_append _ _
  unfold matchesSnapshotGlob
  rw [hp, hs]
  rfl

/-- C6: after every successful ingestion run that persists (and so in
particular after the second of two successive successful runs), the
directory holds exactly one file matching the entity's snapshot glob, namely
the file written by that run; every previously existing matching file was
deleted by the `keep_latest = 0` cleanup before the write. -/
theorem ingest_snapshot_uniqueness {α : Type} (server : Server α)
    (fuel : Nat) (endpoint entity ts_file ts_ingest : String)
    (mtime_new : Nat) (fs : List (SnapshotFile α)) (elapsed : ℚ)
    (records : List α)
    (hfetch : fetch_all_pages server fuel endpoint = some (.ok records))
    (h0 : elapsed ≠ 0) :
    ingest_entity server fuel endpoint entity ts_file ts_ingest mtime_new
        true fs elapsed
      = some (.ok records, cleanup_old_files fs entity 0 ++
          [new_snapshot_file entity ts_file ts_ingest endpoint mtime_new
            records]) ∧
    (cleanup_old_files fs entity 0).filter
        (fun f => matchesSnapshotGlob entity f.name) = [] ∧
    (cleanup_old_files fs entity 0 ++
        [new_snapshot_file entity ts_file ts_ingest endpoint mtime_new
          records]).filter
        (fun f => matchesSnapshotGlob entity f.name)
      = [new_snapshot_file entity ts_file ts_ingest endpoint mtime_new
          records] := by
  refine ⟨?_, cleanup_keep0_no_matching fs entity, ?_⟩
  · simp only [ingest_entity, hfetch, records_per_second, if_neg h0,
      if_true]
  · rw [List.filter_append, cleanup_keep0_no_matching fs entity]
    simp [new_snapshot_file, snapshot_filename_matches]

/-- A server delivering a single page with one record. -/
def c6_server : Server Nat := fun _ _ => .ok ⟨some [7], some ⟨none⟩⟩

/-- A directory holding an old characters snapshot and an unrelated file. -/
def c6_fs : List (SnapshotFile Nat) :=
  [⟨"characters_old.json", 1, ⟨"t0", "s", 0, []⟩⟩,
   ⟨"notes.txt", 2, ⟨"t0", "s", 0, []⟩⟩]

/-- Witness for C6 at a concrete directory with one stale snapshot. -/
theorem ingest_snapshot_uniqueness_witness :
    ingest_entity c6_server 1 "u" "characters" "ts" "ts" 9 true c6_fs 1
      = some (.ok [7], cleanup_old_files c6_fs "characters" 0 ++
          [new_snapshot_file "characters" "ts" "ts" "u" 9 [7]]) ∧
    (cleanup_old_files c6_fs "characters" 0).filter
        (fun f => matchesSnapshotGlob "characters" f.name) = [] ∧
    (cleanup_old_files c6_fs "characters" 0 ++
        [new_snapshot_file "characters" "ts" "ts" "u" 9 [7]]).filter
        (fun f => matchesSnapshotGlob "characters" f.name)
      = [new_snapshot_file "characters" "ts" "ts" "u" 9 [7]] :=
  ingest_snapshot_uniqueness c6_server 1 "u" "characters" "ts" "ts" 9
    c6_fs 1 [7] rfl (by norm_num)

/-! ## C7: `total_records` equals the length of `data` -/

/-- C7: every snapshot object assembled for writing satisfies
`total_records == len(data)` at the moment of writing, for every fetched
collection including the empty one. -/
theorem data_to_save_total_records {α : Type} (ts src : String)
    (records : List α) :
    (data_to_save ts src records).total_records
      = (data_to_save ts src records).data.length := rfl

/-! ## C8: the backoff delay formula -/

/-- C8: for every retry attempt number `k ≥ 1`, the delay before the `k`-th
retry equals `backoff_base × 2^(k-1)` seconds clamped below at 1 second and
above at 30 seconds (and in particular always lies in `[1, 30]`). -/
theorem retry_wait_formula (k : Nat) (_hk : 1 ≤ k) :
    retry_wait k
        = max 1 (min ((API_RETRY_BACKOFF : ℚ) * 2 ^ (k - 1)) 30) ∧
      1 ≤ retry_wait k ∧ retry_wait k ≤ 30 := by
  have h01 : (max 0 1 : ℚ) = 1 := by norm_num
  refine ⟨by rw [retry_wait, wait_exponential, h01], ?_, ?_⟩
  · rw [retry_wait, wait_exponential, h01]
    exact le_max_left _ _
  · rw [retry_wait, wait_exponential, h01]
    exact max_le (by norm_num) (min_le_right _ _)

/-- Witness for C8 at the second retry. -/
theorem retry_wait_formula_witness :
    retry_wait 2
        = max 1 (min ((API_RETRY_BACKOFF : ℚ) * 2 ^ (2 - 1)) 30) ∧
      1 ≤ retry_wait 2 ∧ retry_wait 2 ≤ 30 :=
  retry_wait_formula 2 (by norm_num)

/-! ## C9: statement splitting and sequential execution -/

/-- A script whose only statement contains a semicolon inside a quoted
string literal (a semicolon between two `squote` characters). -/
def c9_script : List Char :=
  "SELECT ".data ++ [squote] ++ "a;b".data ++ [squote] ++ " FROM t;".data

/-- C9 counterexample: `execute_script` splits on *every* semicolon, not
only on top-level statement separators.  On `SELECT 'a;b' FROM t;` the
quoted semicolon is treated as a separator, producing two mangled
statements, whereas splitting on top-level separators yields the single
intended statement. -/
theorem execute_script_split_counterexample :
    script_statements c9_script
        = ["SELECT ".data ++ [squote] ++ "a".data,
           "b".data ++ [squote] ++ " FROM t".data] ∧
      spec_script_statements c9_script
        = ["SELECT ".data ++ [squote] ++ "a;b".data ++ [squote]
            ++ " FROM t".data] ∧
      script_statements c9_script ≠ spec_script_statements c9_script := by
  refine ⟨by decide, by decide, by decide⟩

/-- Closed form of the sequential execution loop: the submitted statements
are the successful prefix plus the first failing statement (if any), and
the script succeeds iff every statement does. -/
theorem run_statements_closed_form (ex : List Char → Bool) :
    ∀ l : List (List Char),
      run_statements ex l
        = (l.take ((l.takeWhile ex).length + 1), l.all ex)
  | [] => rfl
  | s :: rest => by
      by_cases h : ex s = true
      · simp [run_statements, h, run_statements_closed_form ex rest,
          List.takeWhile_cons, List.all_cons]
      · simp [run_statements, h, List.takeWhile_cons, List.all_cons]

/-- C9 amended: `execute_script` splits the script on every semicolon
occurrence (also inside string literals and comment lines — not only
top-level separators), strips comment lines and blank lines from each
piece, executes the resulting non-empty statements sequentially in their
original order, and surfaces the first failing statement, executing no
later statement: the submitted trace is the successful prefix of the
statement list followed by the first failing statement when one exists,
and the run succeeds exactly when every statement succeeds. -/
theorem execute_script_sequential (ex : List Char → Bool)
    (sql_script : List Char) :
    execute_script ex sql_script
      = ((script_statements sql_script).take
            (((script_statements sql_script).takeWhile ex).length + 1),
          (script_statements sql_script).all ex) :=
  run_statements_closed_form ex (script_statements sql_script)

end RickMorty

